import Mathlib

/-!
Shallow embedding of the weather-utils crate (src/unit.rs and src/lib.rs).

Design of the embedding:
* f32 magnitudes are modelled as exact rationals (ℚ); numeric literals of the
  source are read at face value (e.g. 0.55555 is the rational 11111/20000).
* The crate consumes, but does not provide, a floating-point math capability
  (natural exponential and real power).  Those two operations are therefore
  passed as explicit function parameters (expf, powf) to the formulas that use
  them, exactly at the call sites where the source invokes .exp() and .powf().
* The approx crate's relative_eq! comparison (used by every hand-written
  PartialEq impl in the source) is embedded as relative_eq below, following
  the approx crate's f32 implementation: shortcut on exact equality, then the
  absolute-epsilon branch, then the relative branch scaled by the largest
  magnitude.  The infinity checks of the original have no counterpart in ℚ.
-/

namespace WeatherUtils

/-- Value of f32::EPSILON, the machine epsilon 2^(-23) of single precision,
used by the approx crate as default epsilon and default max_relative. -/
def f32_epsilon : ℚ := 1 / 8388608

/-- Embedding of approx::relative_eq for f32 operands: true when the operands
are equal, their absolute difference is at most epsilon, or their absolute
difference is at most the largest magnitude times max_relative. -/
def relative_eq (a b epsilon max_relative : ℚ) : Bool :=
  if a == b then true
  else
    let abs_diff := |a - b|
    if abs_diff ≤ epsilon then true
    else
      let abs_self := |a|
      let abs_other := |b|
      let largest := if abs_other > abs_self then abs_other else abs_self
      decide (abs_diff ≤ largest * max_relative)

/-- Converts a temperature in degrees Celsius to degrees Fahrenheit
(src/unit.rs, convert_celsius_to_fahrenheit). -/
def convert_celsius_to_fahrenheit (temperature : ℚ) : ℚ :=
  temperature * 1.8 + 32

/-- Converts a temperature in degrees Fahrenheit to degrees Celsius
(src/unit.rs, convert_fahrenheit_to_celsius); the constant 0.55555 is the
source's truncated constant, not 5/9. -/
def convert_fahrenheit_to_celsius (temperature : ℚ) : ℚ :=
  (temperature - 32) * 0.55555

/-- The degrees Celsius temperature unit (src/unit.rs, struct Celsius). -/
structure Celsius where
  val : ℚ

/-- The degrees Fahrenheit temperature unit (src/unit.rs, struct Fahrenheit). -/
structure Fahrenheit where
  val : ℚ

/-- Trait defining the different ways to get a temperature
(src/unit.rs, trait TemperatureUnit). -/
class TemperatureUnit (α : Type) where
  celsius : α → ℚ
  fahrenheit : α → ℚ

instance : TemperatureUnit Celsius where
  celsius c := c.val
  fahrenheit c := convert_celsius_to_fahrenheit c.val

instance : TemperatureUnit Fahrenheit where
  celsius f := convert_fahrenheit_to_celsius f.val
  fahrenheit f := f.val

/-- PartialEq for Celsius (src/unit.rs): relative_eq! with epsilon = 0.01 and
the default max_relative = f32::EPSILON. -/
def Celsius.eq (a b : Celsius) : Bool :=
  relative_eq a.val b.val 0.01 f32_epsilon

/-- PartialEq for Fahrenheit (src/unit.rs): relative_eq! with epsilon = 0.01
and the default max_relative = f32::EPSILON. -/
def Fahrenheit.eq (a b : Fahrenheit) : Bool :=
  relative_eq a.val b.val 0.01 f32_epsilon

/-- The temperature, generic over the unit it is stored in
(src/lib.rs, struct Temperature). -/
structure Temperature (U : Type) [TemperatureUnit U] where
  value : U

/-- Temperature::celsius (src/lib.rs): delegates to the unit layer. -/
def Temperature.celsius {U : Type} [TemperatureUnit U] (t : Temperature U) : ℚ :=
  TemperatureUnit.celsius t.value

/-- Temperature::fahrenheit (src/lib.rs): delegates to the unit layer. -/
def Temperature.fahrenheit {U : Type} [TemperatureUnit U] (t : Temperature U) : ℚ :=
  TemperatureUnit.fahrenheit t.value

/-- PartialEq for Temperature (src/lib.rs): relative_eq! on the two celsius()
accessor results, with epsilon = 0.01 and default max_relative. -/
def Temperature.eq {U : Type} [TemperatureUnit U] (a b : Temperature U) : Bool :=
  relative_eq a.celsius b.celsius 0.01 f32_epsilon

/-- Temperature::<Celsius>::new (src/lib.rs). -/
def Temperature.newCelsius (value : ℚ) : Temperature Celsius :=
  ⟨⟨value⟩⟩

/-- Temperature::<Fahrenheit>::new (src/lib.rs). -/
def Temperature.newFahrenheit (value : ℚ) : Temperature Fahrenheit :=
  ⟨⟨value⟩⟩

/-- The combination of the temperature and the relative humidity
(src/lib.rs, struct TemperatureAndRelativeHumidity); fields in source order. -/
structure TemperatureAndRelativeHumidity (U : Type) [TemperatureUnit U] where
  relative_humidity : ℚ
  temperature : Temperature U

/-- Formula for the absolute humidity (src/lib.rs, calculate_absolute_humidity);
expf stands for the external f32 natural-exponential capability. -/
def calculate_absolute_humidity (expf : ℚ → ℚ) (temperature relative_humidity : ℚ) : ℚ :=
  (6.112 * expf ((17.67 * temperature) / (temperature + 243.5)) * relative_humidity * 2.1674)
    / (273.15 + temperature)

/-- TemperatureAndRelativeHumidity::absolute_humidity (src/lib.rs): normalizes
the temperature to Celsius via the celsius() accessor and calls the formula. -/
def TemperatureAndRelativeHumidity.absolute_humidity {U : Type} [TemperatureUnit U]
    (expf : ℚ → ℚ) (x : TemperatureAndRelativeHumidity U) : ℚ :=
  calculate_absolute_humidity expf x.temperature.celsius x.relative_humidity

/-- PartialEq for TemperatureAndRelativeHumidity (src/lib.rs): relative_eq!
with both parameters left at their defaults (f32::EPSILON) on the humidity
field, conjoined with the tolerant temperature equality. -/
def TemperatureAndRelativeHumidity.eq {U : Type} [TemperatureUnit U]
    (a b : TemperatureAndRelativeHumidity U) : Bool :=
  relative_eq a.relative_humidity b.relative_humidity f32_epsilon f32_epsilon
    && Temperature.eq a.temperature b.temperature

/-- TemperatureAndRelativeHumidity::<Celsius>::new (src/lib.rs). -/
def TemperatureAndRelativeHumidity.newCelsius (temperature relative_humidity : ℚ) :
    TemperatureAndRelativeHumidity Celsius :=
  ⟨relative_humidity, Temperature.newCelsius temperature⟩

/-- TemperatureAndRelativeHumidity::<Fahrenheit>::new (src/lib.rs). -/
def TemperatureAndRelativeHumidity.newFahrenheit (temperature relative_humidity : ℚ) :
    TemperatureAndRelativeHumidity Fahrenheit :=
  ⟨relative_humidity, Temperature.newFahrenheit temperature⟩

/-- From impl TemperatureAndRelativeHumidity of Fahrenheit into Celsius
(src/lib.rs): Self::new(value.temperature.celsius(), value.relative_humidity). -/
def TemperatureAndRelativeHumidity.toCelsius
    (value : TemperatureAndRelativeHumidity Fahrenheit) :
    TemperatureAndRelativeHumidity Celsius :=
  TemperatureAndRelativeHumidity.newCelsius value.temperature.celsius value.relative_humidity

/-- From impl TemperatureAndRelativeHumidity of Celsius into Fahrenheit
(src/lib.rs): Self::new(value.temperature.fahrenheit(), value.relative_humidity). -/
def TemperatureAndRelativeHumidity.toFahrenheit
    (value : TemperatureAndRelativeHumidity Celsius) :
    TemperatureAndRelativeHumidity Fahrenheit :=
  TemperatureAndRelativeHumidity.newFahrenheit value.temperature.fahrenheit
    value.relative_humidity

/-- The combination of the temperature and the barometric pressure
(src/lib.rs, struct TemperatureAndBarometricPressure); fields in source order. -/
structure TemperatureAndBarometricPressure (U : Type) [TemperatureUnit U] where
  barometric_pressure : ℚ
  temperature : Temperature U

/-- Formula for the altitude (src/lib.rs, calculate_altitude); powf stands for
the external f32 power capability. -/
def calculate_altitude (powf : ℚ → ℚ → ℚ) (temperature barometric_pressure : ℚ) : ℚ :=
  (powf (1013.25 / barometric_pressure) (1 / 5.257) - 1) * (temperature + 273.15) / 0.0065

/-- TemperatureAndBarometricPressure::altitude (src/lib.rs): normalizes the
temperature to Celsius via the celsius() accessor and calls the formula. -/
def TemperatureAndBarometricPressure.altitude {U : Type} [TemperatureUnit U]
    (powf : ℚ → ℚ → ℚ) (x : TemperatureAndBarometricPressure U) : ℚ :=
  calculate_altitude powf x.temperature.celsius x.barometric_pressure

/-- Derived PartialEq for TemperatureAndBarometricPressure (src/lib.rs,
derive(PartialEq)): field-wise, exact equality on the pressure field and the
custom tolerant equality on the temperature field. -/
def TemperatureAndBarometricPressure.eq {U : Type} [TemperatureUnit U]
    (a b : TemperatureAndBarometricPressure U) : Bool :=
  a.barometric_pressure == b.barometric_pressure
    && Temperature.eq a.temperature b.temperature

/-- TemperatureAndBarometricPressure::<Celsius>::new (src/lib.rs). -/
def TemperatureAndBarometricPressure.newCelsius (temperature barometric_pressure : ℚ) :
    TemperatureAndBarometricPressure Celsius :=
  ⟨barometric_pressure, Temperature.newCelsius temperature⟩

/-- TemperatureAndBarometricPressure::<Fahrenheit>::new (src/lib.rs). -/
def TemperatureAndBarometricPressure.newFahrenheit (temperature barometric_pressure : ℚ) :
    TemperatureAndBarometricPressure Fahrenheit :=
  ⟨barometric_pressure, Temperature.newFahrenheit temperature⟩

/-- From impl TemperatureAndBarometricPressure of Fahrenheit into Celsius
(src/lib.rs): Self::new(value.temperature.celsius(), value.barometric_pressure). -/
def TemperatureAndBarometricPressure.toCelsius
    (value : TemperatureAndBarometricPressure Fahrenheit) :
    TemperatureAndBarometricPressure Celsius :=
  TemperatureAndBarometricPressure.newCelsius value.temperature.celsius
    value.barometric_pressure

/-- From impl TemperatureAndBarometricPressure of Celsius into Fahrenheit
(src/lib.rs): Self::new(value.temperature.fahrenheit(), value.barometric_pressure). -/
def TemperatureAndBarometricPressure.toFahrenheit
    (value : TemperatureAndBarometricPressure Celsius) :
    TemperatureAndBarometricPressure Fahrenheit :=
  TemperatureAndBarometricPressure.newFahrenheit value.temperature.fahrenheit
    value.barometric_pressure

/-- Characterisation of the embedded relative_eq comparison: it accepts
exactly when the operands are equal, within the absolute epsilon, or within
the relative tolerance scaled by the largest magnitude. -/
theorem relative_eq_iff (a b epsilon max_relative : ℚ) :
    relative_eq a b epsilon max_relative = true ↔
      a = b ∨ |a - b| ≤ epsilon ∨ |a - b| ≤ max |a| |b| * max_relative := by
  have hmax : (if |b| > |a| then |b| else |a|) = max |a| |b| := by
    rcases le_or_lt (|b|) (|a|) with h | h
    · rw [if_neg (not_lt.mpr h), max_eq_left h]
    · rw [if_pos h, max_eq_right h.le]
  simp only [relative_eq, hmax]
  split_ifs with h1 h2
  · simp only [beq_iff_eq] at h1
    simp [h1]
  · simp [h2]
  · simp only [beq_iff_eq] at h1
    simp only [decide_eq_true_eq]
    tauto

/-- Negative form of the characterisation of relative_eq. -/
theorem relative_eq_eq_false (a b epsilon max_relative : ℚ)
    (h : ¬(a = b ∨ |a - b| ≤ epsilon ∨ |a - b| ≤ max |a| |b| * max_relative)) :
    relative_eq a b epsilon max_relative = false := by
  rw [Bool.eq_false_iff]
  intro hc
  exact h ((relative_eq_iff a b epsilon max_relative).mp hc)

/-- C1: for every magnitude v, a Celsius-tagged value's celsius() accessor
returns v verbatim and its fahrenheit() accessor returns v * 1.8 + 32; a
Fahrenheit-tagged value's fahrenheit() accessor returns v verbatim and its
celsius() accessor returns (v - 32) * 0.55555. -/
theorem C1_unit_accessor_contract (v : ℚ) :
    TemperatureUnit.celsius (Celsius.mk v) = v ∧
    TemperatureUnit.fahrenheit (Celsius.mk v) = v * 1.8 + 32 ∧
    TemperatureUnit.fahrenheit (Fahrenheit.mk v) = v ∧
    TemperatureUnit.celsius (Fahrenheit.mk v) = (v - 32) * 0.55555 :=
  ⟨rfl, rfl, rfl, rfl⟩

/-- C2: for every Celsius temperature T and relative humidity RH,
absolute_humidity() returns exactly the expression
6.112 * exp((17.67 * T) / (T + 243.5)) * RH * 2.1674 / (273.15 + T), with no
input interception (the function is total, valid for every expf and input). -/
theorem C2_absolute_humidity_formula (expf : ℚ → ℚ) (T RH : ℚ) :
    (TemperatureAndRelativeHumidity.newCelsius T RH).absolute_humidity expf =
      6.112 * expf ((17.67 * T) / (T + 243.5)) * RH * 2.1674 / (273.15 + T) :=
  rfl

/-- C3: for every Celsius temperature T and barometric pressure P, altitude()
returns exactly the expression
(powf (1013.25 / P) (1 / 5.257) - 1) * (T + 273.15) / 0.0065, with no input
interception (the function is total, valid for every powf and input). -/
theorem C3_altitude_formula (powf : ℚ → ℚ → ℚ) (T P : ℚ) :
    (TemperatureAndBarometricPressure.newCelsius T P).altitude powf =
      (powf (1013.25 / P) (1 / 5.257) - 1) * (T + 273.15) / 0.0065 :=
  rfl

/-- C4: for every t in the range -50..150, the composition
convert_fahrenheit_to_celsius of convert_celsius_to_fahrenheit is within 0.01
absolute tolerance of t (the exact composition is t * 0.99999). -/
theorem C4_roundtrip (t : ℚ) (h1 : -50 ≤ t) (h2 : t ≤ 150) :
    |convert_fahrenheit_to_celsius (convert_celsius_to_fahrenheit t) - t| ≤ 0.01 := by
  unfold convert_celsius_to_fahrenheit convert_fahrenheit_to_celsius
  rw [show (t * 1.8 + 32 - 32) * 0.55555 - t = -(0.00001 * t) by ring, abs_neg, abs_mul,
    show |(0.00001 : ℚ)| = 0.00001 by norm_num]
  have ht : |t| ≤ 150 := abs_le.mpr ⟨by linarith, h2⟩
  linarith

/-- Witness for C4 at t = 37.5. -/
theorem C4_roundtrip_witness :
    |convert_fahrenheit_to_celsius (convert_celsius_to_fahrenheit 37.5) - 37.5| ≤ 0.01 :=
  C4_roundtrip 37.5 (by norm_num) (by norm_num)

/-- C5 counterexample: the claimed iff fails at Celsius(1000000) versus
Celsius(1000000 + 1/16): the code's equality accepts the pair through the
relative-tolerance branch although the absolute difference exceeds 0.01. -/
theorem C5_counterexample :
    Celsius.eq (Celsius.mk 1000000) (Celsius.mk (1000000 + 1 / 16)) = true ∧
    ¬(|(1000000 : ℚ) - (1000000 + 1 / 16)| ≤ 0.01) := by
  constructor
  · show relative_eq 1000000 (1000000 + 1 / 16) 0.01 f32_epsilon = true
    refine (relative_eq_iff _ _ _ _).mpr (Or.inr (Or.inr ?_))
    rw [show |(1000000 : ℚ) - (1000000 + 1 / 16)| = 1 / 16 by norm_num,
      abs_of_nonneg (by norm_num : (0 : ℚ) ≤ 1000000),
      abs_of_nonneg (by norm_num : (0 : ℚ) ≤ 1000000 + 1 / 16),
      max_eq_right (by norm_num : (1000000 : ℚ) ≤ 1000000 + 1 / 16)]
    norm_num [f32_epsilon]
  · rw [show |(1000000 : ℚ) - (1000000 + 1 / 16)| = 1 / 16 by norm_num]
    norm_num

/-- C5 amended: two unit values of the same variant are equal iff their
magnitudes are equal, or their absolute difference is at most 0.01, or their
absolute difference is at most the largest magnitude times f32::EPSILON. -/
theorem C5_tolerance_equality (a b : ℚ) :
    (Celsius.eq (Celsius.mk a) (Celsius.mk b) = true ↔
      a = b ∨ |a - b| ≤ 0.01 ∨ |a - b| ≤ max |a| |b| * f32_epsilon) ∧
    (Fahrenheit.eq (Fahrenheit.mk a) (Fahrenheit.mk b) = true ↔
      a = b ∨ |a - b| ≤ 0.01 ∨ |a - b| ≤ max |a| |b| * f32_epsilon) :=
  ⟨relative_eq_iff a b 0.01 f32_epsilon, relative_eq_iff a b 0.01 f32_epsilon⟩

/-- C6: whenever the power capability sends 1 to 1 at exponent 1/5.257 (as
IEEE powf does), the altitude at barometric pressure 1013.25 is exactly 0 for
every temperature, both for the bare formula and for the composite method. -/
theorem C6_sea_level_invariant (powf : ℚ → ℚ → ℚ) (T : ℚ)
    (hpow : powf 1 (1 / 5.257) = 1) :
    calculate_altitude powf T 1013.25 = 0 ∧
    (TemperatureAndBarometricPressure.newCelsius T 1013.25).altitude powf = 0 := by
  have h : calculate_altitude powf T 1013.25 = 0 := by
    unfold calculate_altitude
    rw [show (1013.25 : ℚ) / 1013.25 = 1 by norm_num, hpow]
    ring
  exact ⟨h, h⟩

/-- Witness for C6 with the constant-one power capability at T = 17.93. -/
theorem C6_sea_level_invariant_witness :
    calculate_altitude (fun _ _ => 1) 17.93 1013.25 = 0 ∧
    (TemperatureAndBarometricPressure.newCelsius 17.93 1013.25).altitude (fun _ _ => 1) = 0 :=
  C6_sea_level_invariant (fun _ _ => 1) 17.93 rfl

/-- C7: the Fahrenheit-tagged composite methods equal the Celsius formula
applied to the converted temperature, i.e. normalization happens through the
celsius() accessor of the unit layer. -/
theorem C7_fahrenheit_normalization (expf : ℚ → ℚ) (powf : ℚ → ℚ → ℚ) (f x : ℚ) :
    (TemperatureAndRelativeHumidity.newFahrenheit f x).absolute_humidity expf =
      calculate_absolute_humidity expf (convert_fahrenheit_to_celsius f) x ∧
    (TemperatureAndBarometricPressure.newFahrenheit f x).altitude powf =
      calculate_altitude powf (convert_fahrenheit_to_celsius f) x :=
  ⟨rfl, rfl⟩

/-- C8: the four composite From conversions copy the non-temperature field
verbatim and replace only the temperature field with its unit-converted
value; nothing else is computed or stored. -/
theorem C8_composite_conversion_frame (rf : TemperatureAndRelativeHumidity Fahrenheit)
    (rc : TemperatureAndRelativeHumidity Celsius)
    (pf : TemperatureAndBarometricPressure Fahrenheit)
    (pc : TemperatureAndBarometricPressure Celsius) :
    (rf.toCelsius.relative_humidity = rf.relative_humidity ∧
      rf.toCelsius.temperature.value.val =
        convert_fahrenheit_to_celsius rf.temperature.value.val) ∧
    (rc.toFahrenheit.relative_humidity = rc.relative_humidity ∧
      rc.toFahrenheit.temperature.value.val =
        convert_celsius_to_fahrenheit rc.temperature.value.val) ∧
    (pf.toCelsius.barometric_pressure = pf.barometric_pressure ∧
      pf.toCelsius.temperature.value.val =
        convert_fahrenheit_to_celsius pf.temperature.value.val) ∧
    (pc.toFahrenheit.barometric_pressure = pc.barometric_pressure ∧
      pc.toFahrenheit.temperature.value.val =
        convert_celsius_to_fahrenheit pc.temperature.value.val) :=
  ⟨⟨rfl, rfl⟩, ⟨rfl, rfl⟩, ⟨rfl, rfl⟩, ⟨rfl, rfl⟩⟩

/-- C9: equality on Temperature compares the celsius() accessor results with
tolerance 0.01, so two Fahrenheit-tagged temperatures 0.018 apart compare
equal even though the raw unit-layer Fahrenheit equality rejects the same
pair of magnitudes. -/
theorem C9_temperature_equality_in_celsius :
    (∀ a b : Temperature Fahrenheit,
      Temperature.eq a b =
        relative_eq (convert_fahrenheit_to_celsius a.value.val)
          (convert_fahrenheit_to_celsius b.value.val) 0.01 f32_epsilon) ∧
    Temperature.eq (Temperature.newFahrenheit 32) (Temperature.newFahrenheit 32.018) = true ∧
    Fahrenheit.eq (Fahrenheit.mk 32) (Fahrenheit.mk 32.018) = false := by
  refine ⟨fun a b => rfl, ?_, ?_⟩
  · show relative_eq (convert_fahrenheit_to_celsius 32) (convert_fahrenheit_to_celsius 32.018)
      0.01 f32_epsilon = true
    refine (relative_eq_iff _ _ _ _).mpr (Or.inr (Or.inl ?_))
    unfold convert_fahrenheit_to_celsius
    rw [show |((32 : ℚ) - 32) * 0.55555 - ((32.018 : ℚ) - 32) * 0.55555| = 0.0099999 by norm_num]
    norm_num
  · show relative_eq 32 32.018 0.01 f32_epsilon = false
    apply relative_eq_eq_false
    push_neg
    refine ⟨by norm_num, ?_, ?_⟩
    · rw [show |(32 : ℚ) - 32.018| = 0.018 by norm_num]
      norm_num
    · rw [show |(32 : ℚ) - 32.018| = 0.018 by norm_num,
        abs_of_nonneg (by norm_num : (0 : ℚ) ≤ 32),
        abs_of_nonneg (by norm_num : (0 : ℚ) ≤ 32.018),
        max_eq_right (by norm_num : (32 : ℚ) ≤ 32.018)]
      norm_num [f32_epsilon]

/-- C10: derived equality on TemperatureAndBarometricPressure compares the
pressure field exactly, so whenever the temperatures are equal within
tolerance the composites are equal iff the pressures are equal; a pressure
difference of one f32 step at 100 makes composites unequal while the same
difference on the humidity field of TemperatureAndRelativeHumidity is within
its relative tolerance. -/
theorem C10_pressure_exact_equality :
    (∀ x y : TemperatureAndBarometricPressure Celsius,
      Temperature.eq x.temperature y.temperature = true →
      (TemperatureAndBarometricPressure.eq x y = true ↔
        x.barometric_pressure = y.barometric_pressure)) ∧
    TemperatureAndBarometricPressure.eq
      (TemperatureAndBarometricPressure.newCelsius 20 100)
      (TemperatureAndBarometricPressure.newCelsius 20 (100 + 1 / 131072)) = false ∧
    TemperatureAndRelativeHumidity.eq
      (TemperatureAndRelativeHumidity.newCelsius 20 100)
      (TemperatureAndRelativeHumidity.newCelsius 20 (100 + 1 / 131072)) = true := by
  refine ⟨?_, ?_, ?_⟩
  · intro x y h
    simp [TemperatureAndBarometricPressure.eq, h, beq_iff_eq]
  · show (((100 : ℚ) == 100 + 1 / 131072)
        && Temperature.eq (Temperature.newCelsius 20) (Temperature.newCelsius 20)) = false
    rw [beq_eq_false_iff_ne.mpr (by norm_num : (100 : ℚ) ≠ 100 + 1 / 131072)]
    rfl
  · show (relative_eq 100 (100 + 1 / 131072) f32_epsilon f32_epsilon
        && Temperature.eq (Temperature.newCelsius 20) (Temperature.newCelsius 20)) = true
    rw [show Temperature.eq (Temperature.newCelsius 20) (Temperature.newCelsius 20) = true from
        (relative_eq_iff _ _ _ _).mpr (Or.inl rfl),
      show relative_eq 100 (100 + 1 / 131072) f32_epsilon f32_epsilon = true from
        (relative_eq_iff _ _ _ _).mpr (Or.inr (Or.inr (by
          rw [show |(100 : ℚ) - (100 + 1 / 131072)| = 1 / 131072 by norm_num,
            abs_of_nonneg (by norm_num : (0 : ℚ) ≤ 100),
            abs_of_nonneg (by norm_num : (0 : ℚ) ≤ 100 + 1 / 131072),
            max_eq_right (by norm_num : (100 : ℚ) ≤ 100 + 1 / 131072)]
          norm_num [f32_epsilon])))]
    rfl

/-- Witness for C10 at two composites with equal temperatures and pressures. -/
theorem C10_pressure_exact_equality_witness :
    TemperatureAndBarometricPressure.eq
        (TemperatureAndBarometricPressure.newCelsius 20 991.32)
        (TemperatureAndBarometricPressure.newCelsius 20 991.32) = true ↔
      (991.32 : ℚ) = 991.32 :=
  C10_pressure_exact_equality.1
    (TemperatureAndBarometricPressure.newCelsius 20 991.32)
    (TemperatureAndBarometricPressure.newCelsius 20 991.32)
    ((relative_eq_iff _ _ _ _).mpr (Or.inl rfl))

end WeatherUtils
